import Mathlib

/-!
Verification of the image-recognition pipeline of the Ai-chop repository
(src/bot.py and src/telegram_gemini_affiliate_bot.py), as a shallow
embedding in Lean 4.  Python values are modelled by the inductive `PyVal`;
Python code that can raise is modelled with `Except String`-valued
functions (the error string names the Python exception class).
-/

/-- A dynamic Python value: None, bool, int, str, list, or dict
(dicts keep insertion order, as Python 3.7+ dicts do).  Objects probed
with `getattr` are modelled as dicts of their attributes. -/
inductive PyVal where
  | none : PyVal
  | bool : Bool → PyVal
  | int : Int → PyVal
  | str : String → PyVal
  | list : List PyVal → PyVal
  | dict : List (String × PyVal) → PyVal

/-- Python truthiness. -/
def pyTruthy : PyVal → Bool
  | .none => false
  | .bool b => b
  | .int n => n != 0
  | .str s => s != ""
  | .list xs => !xs.isEmpty
  | .dict f => !f.isEmpty

/-- `d.get(k)` on a dict (default None); first matching key wins. -/
def lookupD : List (String × PyVal) → String → PyVal
  | [], _ => PyVal.none
  | p :: rest, k => if p.1 == k then p.2 else lookupD rest k

/-- `k in d` on a dict. -/
def hasKey : List (String × PyVal) → String → Bool
  | [], _ => false
  | p :: rest, k => p.1 == k || hasKey rest k

/-- `getattr(v, name, None)`: attribute lookup with default None. -/
def pyGetattr (v : PyVal) (name : String) : PyVal :=
  match v with
  | .dict f => lookupD f name
  | _ => PyVal.none

/-- Python `a or b`. -/
def pyOr (a b : PyVal) : PyVal := if pyTruthy a then a else b

/-- The whitespace characters stripped by Python `str.strip()` (ASCII part). -/
def isPySpace (c : Char) : Bool :=
  c == ' ' || c == '\t' || c == '\n' || c == '\r' || c == '\x0b' || c == '\x0c'

/-- Python `s.strip()`. -/
def stripStr (s : String) : String :=
  String.mk (((s.data.dropWhile isPySpace).reverse.dropWhile isPySpace).reverse)

/-- Python `v.strip()` on a dynamic value: succeeds only on strings,
raises AttributeError otherwise. -/
def pyStrip (v : PyVal) : Except String String :=
  match v with
  | .str s => .ok (stripStr s)
  | _ => .error "AttributeError"

mutual
/-- Python `repr` for the modelled value universe. -/
def pyRepr : PyVal → String
  | .none => "None"
  | .bool true => "True"
  | .bool false => "False"
  | .int n => toString n
  | .str s => "\x27" ++ s ++ "\x27"
  | .list xs => "[" ++ pyReprList xs ++ "]"
  | .dict f => "\x7b" ++ pyReprFields f ++ "\x7d"

def pyReprList : List PyVal → String
  | [] => ""
  | [v] => pyRepr v
  | v :: rest => pyRepr v ++ ", " ++ pyReprList rest

def pyReprFields : List (String × PyVal) → String
  | [] => ""
  | [(k, v)] => "\x27" ++ k ++ "\x27: " ++ pyRepr v
  | (k, v) :: rest => "\x27" ++ k ++ "\x27: " ++ pyRepr v ++ ", " ++ pyReprFields rest
end

/-- Python `str(v)`: identity on strings, `repr` rendering otherwise. -/
def pyStr : PyVal → String
  | .str s => s
  | v => pyRepr v

mutual
/-- `find_first_str` from telegram_gemini_affiliate_bot.py (lines 198-211):
depth-first search for a string; nested falsy results are skipped
(`if res: return res`). -/
def find_first_str : PyVal → Option String
  | .str s => some s
  | .dict f => find_first_str_fields f
  | .list xs => find_first_str_list xs
  | _ => Option.none

def find_first_str_fields : List (String × PyVal) → Option String
  | [] => Option.none
  | (_, v) :: rest =>
    match find_first_str v with
    | some s => if s = "" then find_first_str_fields rest else some s
    | Option.none => find_first_str_fields rest

def find_first_str_list : List PyVal → Option String
  | [] => Option.none
  | v :: rest =>
    match find_first_str v with
    | some s => if s = "" then find_first_str_list rest else some s
    | Option.none => find_first_str_list rest
end

mutual
/-- `true` iff the value contains no string anywhere. -/
def noStr : PyVal → Bool
  | .str _ => false
  | .list xs => noStrList xs
  | .dict f => noStrFields f
  | _ => true

def noStrList : List PyVal → Bool
  | [] => true
  | v :: rest => noStr v && noStrList rest

def noStrFields : List (String × PyVal) → Bool
  | [] => true
  | (_, v) :: rest => noStr v && noStrFields rest
end

/-! ## telegram_gemini_affiliate_bot.py : extract_text_from_gemini_response
(lines 174-216).  The try-block body is `extract_body`; the function wraps
it with `except Exception: return None`. -/

/-- The `for part in cont:` loop (lines 183-187): returns on the first
dict part containing "text" (whose value is stripped, possibly raising)
or the first string part; other parts are skipped. -/
def contentLoop : List PyVal → Except String (Option String)
  | [] => .ok Option.none
  | p :: rest =>
    match p with
    | .dict pf =>
      if hasKey pf "text" then (pyStrip (lookupD pf "text")).map some
      else contentLoop rest
    | .str s => .ok (some (stripStr s))
    | _ => contentLoop rest

/-- Lines 188-189: `if "text" in first and isinstance(first["text"], str)`. -/
def afterContent (ff : List (String × PyVal)) : Except String (Option String) :=
  if hasKey ff "text" then
    match lookupD ff "text" with
    | .str s => .ok (some (stripStr s))
    | _ => .ok Option.none
  else .ok Option.none

/-- Lines 177-189: the candidates/outputs/outputs_candidates block. -/
def candidatesBlock (f : List (String × PyVal)) : Except String (Option String) :=
  let cands := pyOr (pyOr (lookupD f "candidates") (lookupD f "outputs"))
      (lookupD f "outputs_candidates")
  match cands with
  | .list (first :: _) =>
    (match first with
     | .dict ff =>
       (match lookupD ff "content" with
        | .list (p :: ps) =>
          (match contentLoop (p :: ps) with
           | .ok (some s) => .ok (some s)
           | .ok Option.none => afterContent ff
           | .error e => .error e)
        | _ => afterContent ff)
     | _ => .ok Option.none)
  | _ => .ok Option.none

/-- Lines 190-193: `if "output" in data and isinstance(data["output"], dict)`. -/
def outputBlock (f : List (String × PyVal)) : Except String (Option String) :=
  if hasKey f "output" then
    match lookupD f "output" with
    | .dict out =>
      if hasKey out "text" then (pyStrip (lookupD out "text")).map some
      else .ok Option.none
    | _ => .ok Option.none
  else .ok Option.none

/-- Lines 194-196: the ("response", "result", "text") direct-key scan
(each hit must already be a string, so this block cannot raise). -/
def keysBlock (f : List (String × PyVal)) : Option String :=
  match lookupD f "response" with
  | .str s => some (stripStr s)
  | _ =>
    match lookupD f "result" with
    | .str s => some (stripStr s)
    | _ =>
      match lookupD f "text" with
      | .str s => some (stripStr s)
      | _ => Option.none

/-- Sequencing of the early-return blocks: a block that returned a value
or raised short-circuits; a block that fell through continues. -/
def pyChain (a b : Except String (Option String)) : Except String (Option String) :=
  match a with
  | .ok Option.none => b
  | other => other

/-- The body of the `try:` in extract_text_from_gemini_response.
`data.get` on a non-dict raises AttributeError (line 177). -/
def extract_body (data : PyVal) : Except String (Option String) :=
  match data with
  | .dict f =>
    pyChain (candidatesBlock f)
      (pyChain (outputBlock f)
        (pyChain (.ok (keysBlock f))
          (.ok ((find_first_str data).map stripStr))))
  | _ => .error "AttributeError"

/-- extract_text_from_gemini_response (lines 174-216): the try-body with
`except Exception: return None`.  Typed in `Except` so that "the function
raises" would be a `.error` result. -/
def extract_text_from_gemini_response (data : PyVal) : Except String (Option String) :=
  match extract_body data with
  | .ok r => .ok r
  | .error _ => .ok Option.none

/-! ## bot.py : extract_text_from_response (lines 45-67). -/

/-- The `for o in outputs:` accumulation (lines 59-63):
`p = o.text or o.content; if p: pieces.append(p)`. -/
def collectPieces : List PyVal → List PyVal
  | [] => []
  | o :: rest =>
    let p := pyOr (pyGetattr o "text") (pyGetattr o "content")
    if pyTruthy p then p :: collectPieces rest else collectPieces rest

/-- All elements as strings, or failure (a non-string element would make
`"\n".join(pieces)` raise TypeError). -/
def allStrings : List PyVal → Option (List String)
  | [] => some []
  | .str s :: rest => (allStrings rest).map (fun l => s :: l)
  | _ => Option.none

/-- `"\n".join(pieces).strip()` (line 65). -/
def joinStrip (ps : List PyVal) : Except String String :=
  match allStrings ps with
  | some ss => .ok (stripStr (String.intercalate "\n" ss))
  | Option.none => .error "TypeError"

/-- Lines 57-67: the outputs block, then the `str(resp)` fallback. -/
def etr_outputs (resp : PyVal) : Except String String :=
  let outputs := pyGetattr resp "outputs"
  match outputs with
  | .list (o :: os) =>
    (match collectPieces (o :: os) with
     | [] => .ok (stripStr (pyStr resp))
     | ps => joinStrip ps)
  | _ => .ok (stripStr (pyStr resp))

/-- Lines 51-56: the candidates block (`t = first.content or first.text`). -/
def etr_candidates (resp : PyVal) : Except String String :=
  let candidates := pyGetattr resp "candidates"
  match candidates with
  | .list (first :: _) =>
    let t := pyOr (pyGetattr first "content") (pyGetattr first "text")
    if pyTruthy t then pyStrip t else etr_outputs resp
  | _ => etr_outputs resp

/-- extract_text_from_response (bot.py lines 45-67).  There is no
try/except in this function, so a `.strip()` on a truthy non-string
propagates as a raised AttributeError (`.error`). -/
def extract_text_from_response (resp : PyVal) : Except String String :=
  match resp with
  | .none => .ok ""
  | _ =>
    let text := pyGetattr resp "text"
    if pyTruthy text then pyStrip text else etr_candidates resp

/-! ## bot.py : image variant selection (handle_photo, lines 82-111).
The loop walks the variant list from the largest (last index) down,
downloads each, and selects the first variant whose byte size is at or
under MAX_IMAGE_BYTES; when every download succeeds but every variant is
over the threshold, nothing is selected and the handler reports a local
processing error.  We model the size-driven selection (all downloads
succeeding), returning the selected byte size. -/

def MAX_IMAGE_BYTES : Nat := 6 * 1024 * 1024

/-- The selection loop: first size at or under the threshold, scanning
from the largest variant downwards. -/
def selectVariant (sizes : List Nat) (maxBytes : Nat) : Option Nat :=
  sizes.reverse.find? (fun s => decide (s ≤ maxBytes))

/-! ## bot.py : the fallback plan of provider attempts
(handle_photo, lines 125-198). -/

/-- Input mode of a provider attempt. -/
inductive Mode where
  | url : Mode
  | inlineBytes : Mode
deriving DecidableEq

/-- One provider attempt target: input mode plus the API entry used. -/
structure Target where
  mode : Mode
  api : String
deriving DecidableEq

/-- Normalized text yielded by one attempt outcome: an exception or an
empty normalized text yields nothing. -/
def yieldsText (o : Except String String) : Option String :=
  match o with
  | .ok s => if s = "" then Option.none else some s
  | .error _ => Option.none

/-- The attempt sequence: each target is tried once, in order; the first
non-empty normalized text wins; exceptions and empty texts advance to the
next target.  Returns the list of attempted targets and the result. -/
def runPlanE : List Target → (Target → Except String String) → List Target × Option String
  | [], _ => ([], Option.none)
  | t :: rest, prov =>
    match yieldsText (prov t) with
    | some s => ([t], some s)
    | Option.none =>
      let r := runPlanE rest prov
      (t :: r.1, r.2)

/-- bot.py's fixed fallback plan (lines 125-198): when a Telegram file
URL was built, generate_text and generate_content by URL first, then
generate_content and generate_text with inline bytes; without a URL only
the byte-based attempts run. -/
def botPlan (urlAvailable : Bool) : List Target :=
  if urlAvailable then
    [⟨Mode.url, "generate_text"⟩, ⟨Mode.url, "generate_content"⟩,
     ⟨Mode.inlineBytes, "generate_content"⟩, ⟨Mode.inlineBytes, "generate_text"⟩]
  else
    [⟨Mode.inlineBytes, "generate_content"⟩, ⟨Mode.inlineBytes, "generate_text"⟩]

/-- The reply sent by bot.py's handle_photo. -/
inductive BotReply where
  | noPhoto : BotReply
  | processError : BotReply
  | product : String → BotReply
  | failed : BotReply
  | genericError : BotReply
deriving DecidableEq

/-- bot.py handle_photo (lines 74-205), size-selection plus the attempt
sequence; the outer try/except (lines 200-205) converts any escaped
exception into the generic error reply, so the result is always `.ok`. -/
def handle_photo (sizes : List Nat) (urlAvailable : Bool)
    (prov : Target → Except String String) : Except String BotReply :=
  if sizes.isEmpty then .ok BotReply.noPhoto
  else
    match selectVariant sizes MAX_IMAGE_BYTES with
    | Option.none => .ok BotReply.processError
    | some _ =>
      match (runPlanE (botPlan urlAvailable) prov).2 with
      | some t => .ok (BotReply.product t)
      | Option.none => .ok BotReply.failed

/-! ## telegram_gemini_affiliate_bot.py : call_gemini_with_image
(lines 116-171): bounded retry with exponential backoff. -/

/-- The fate of one `session.post` attempt: a response with an HTTP
status and parsed JSON body, a timeout, or some other raised exception. -/
inductive CallOutcome where
  | ok : Nat → PyVal → CallOutcome
  | timeout : CallOutcome
  | exc : String → CallOutcome

def maxAttempts : Nat := 3

/-- The `for attempt in range(1, max_attempts + 1)` loop (lines 140-171):
on HTTP 200 the body is normalized and returned; a 5xx status, a timeout,
or an exception is retried after sleeping `backoff` seconds (doubling it)
while attempts remain, and otherwise yields None; any other status yields
None at once.  Returns the list of sleeps performed and the result.
`fuel` bounds the recursion; `maxAttempts` fuel is always enough. -/
def geminiRetry (out : Nat → CallOutcome) : Nat → Nat → Nat → List Nat × Option String
  | _, _, 0 => ([], Option.none)
  | attempt, backoff, fuel + 1 =>
    match out attempt with
    | .ok status body =>
      if status = 200 then
        match extract_text_from_gemini_response body with
        | .ok text => ([], text)
        | .error _ =>
          if attempt < maxAttempts then
            let r := geminiRetry out (attempt + 1) (backoff * 2) fuel
            (backoff :: r.1, r.2)
          else ([], Option.none)
      else
        if 500 ≤ status ∧ status < 600 ∧ attempt < maxAttempts then
          let r := geminiRetry out (attempt + 1) (backoff * 2) fuel
          (backoff :: r.1, r.2)
        else ([], Option.none)
    | .timeout =>
      if attempt < maxAttempts then
        let r := geminiRetry out (attempt + 1) (backoff * 2) fuel
        (backoff :: r.1, r.2)
      else ([], Option.none)
    | .exc _ =>
      if attempt < maxAttempts then
        let r := geminiRetry out (attempt + 1) (backoff * 2) fuel
        (backoff :: r.1, r.2)
      else ([], Option.none)

/-- call_gemini_with_image: `backoff = 1`, attempts numbered from 1. -/
def call_gemini_with_image (out : Nat → CallOutcome) : List Nat × Option String :=
  geminiRetry out 1 1 maxAttempts

/-- A transient failure in the sense of the spec: a timeout or a
5xx-class HTTP status. -/
def Transient (o : CallOutcome) : Prop :=
  o = CallOutcome.timeout ∨ ∃ s b, o = CallOutcome.ok s b ∧ 500 ≤ s ∧ s < 600

/-! ## SQLite language persistence (lines 78-92). -/

/-- The `users` table: rows of (user_id, lang), user_id a primary key. -/
abbrev Db := List (Int × String)

/-- `REPLACE INTO users (user_id, lang) VALUES (?, ?)`: the row keyed on
user_id is replaced. -/
def set_user_lang (db : Db) (user_id : Int) (lang : String) : Db :=
  (user_id, lang) :: db.filter (fun p => !(p.1 == user_id))

/-- `SELECT lang FROM users WHERE user_id = ?`, defaulting to "en". -/
def get_user_lang : Db → Int → String
  | [], _ => "en"
  | p :: rest, user_id => if p.1 == user_id then p.2 else get_user_lang rest user_id

/-! ## telegram_gemini_affiliate_bot.py : photo_handler (lines 274-330). -/

/-- Python `s.splitlines()` (ASCII terminators). -/
def splitLinesCore : List Char → List Char → List String
  | [], [] => []
  | [], acc => [String.mk acc.reverse]
  | '\r' :: '\n' :: rest, acc => String.mk acc.reverse :: splitLinesCore rest []
  | '\r' :: rest, acc => String.mk acc.reverse :: splitLinesCore rest []
  | '\n' :: rest, acc => String.mk acc.reverse :: splitLinesCore rest []
  | c :: rest, acc => splitLinesCore rest (c :: acc)

def pySplitlines (s : String) : List String := splitLinesCore s.data []

/-- `product_name.strip().splitlines()[0]` (line 307); indexing an empty
list raises IndexError. -/
def firstLineE (s : String) : Except String String :=
  match pySplitlines (stripStr s) with
  | [] => .error "IndexError"
  | l :: _ => .ok l

/-- urllib.parse.quote_plus. -/
def isQuoteSafe (b : Nat) : Bool :=
  (48 ≤ b && b ≤ 57) || (65 ≤ b && b ≤ 90) || (97 ≤ b && b ≤ 122) ||
  b == 45 || b == 46 || b == 95 || b == 126

def hexDigit (n : Nat) : Char :=
  if n < 10 then Char.ofNat (48 + n) else Char.ofNat (55 + n)

def utf8Bytes (c : Char) : List Nat :=
  let n := c.toNat
  if n < 128 then [n]
  else if n < 2048 then [192 + n / 64, 128 + n % 64]
  else if n < 65536 then [224 + n / 4096, 128 + (n / 64) % 64, 128 + n % 64]
  else [240 + n / 262144, 128 + (n / 4096) % 64, 128 + (n / 64) % 64, 128 + n % 64]

def quote_plus (s : String) : String :=
  String.mk (s.data.foldr (fun c acc =>
    if c == ' ' then '+' :: acc
    else (utf8Bytes c).foldr (fun b acc2 =>
      if isQuoteSafe b then Char.ofNat b :: acc2
      else '%' :: hexDigit (b / 16) :: hexDigit (b % 16) :: acc2) acc) [])

/-- make_amazon_link (lines 103-105). -/
def make_amazon_link (name : String) : String :=
  "https://www.amazon.com/s?k=" ++ quote_plus name ++ "&tag=chop07c-20"

/-- The reply sent by photo_handler. -/
inductive Reply where
  | noPhoto : Reply
  | internalError : Reply
  | product : String → String → Reply
  | notIdentified : String → Reply
  | errorMsg : String → Reply
deriving DecidableEq

/-- photo_handler (lines 274-330).  `downloadResult` is the fate of
get_file plus download_as_bytearray; `stub` maps the downloaded bytes to
the per-attempt provider outcomes.  The user language is read before the
try-block; the except-arms (lines 325-330) turn any raised error into the
language-appropriate error reply, so the state (db) is never written and
the result is always `.ok`. -/
def photo_body (lang : String) (downloadResult : Except String (List Nat))
    (sessionAvailable : Bool) (stub : List Nat → Nat → CallOutcome) :
    Except String Reply :=
  match downloadResult with
  | .error e => .error e
  | .ok imageBytes =>
    if sessionAvailable = false then .ok Reply.internalError
    else
      match (call_gemini_with_image (stub imageBytes)).2 with
      | some p =>
        if p = "" then .ok (Reply.notIdentified lang)
        else
          match firstLineE p with
          | .error e => .error e
          | .ok name => .ok (Reply.product name (make_amazon_link name))
      | Option.none => .ok (Reply.notIdentified lang)

def photo_handler (db : Db) (uid : Int) (photoPresent : Bool)
    (downloadResult : Except String (List Nat)) (sessionAvailable : Bool)
    (stub : List Nat → Nat → CallOutcome) : Except String (Db × Reply) :=
  if photoPresent = false then .ok (db, Reply.noPhoto)
  else
    match photo_body (get_user_lang db uid) downloadResult sessionAvailable stub with
    | .ok r => .ok (db, r)
    | .error _ => .ok (db, Reply.errorMsg (get_user_lang db uid))

/-- Running photo_handler twice in sequence, threading the DB state. -/
def runTwice (db : Db) (uid : Int) (photoPresent : Bool)
    (downloadResult : Except String (List Nat)) (sessionAvailable : Bool)
    (stub : List Nat → Nat → CallOutcome) : Option (Reply × Reply) :=
  match photo_handler db uid photoPresent downloadResult sessionAvailable stub with
  | .ok (d1, r1) =>
    (match photo_handler d1 uid photoPresent downloadResult sessionAvailable stub with
     | .ok (_, r2) => some (r1, r2)
     | .error _ => Option.none)
  | .error _ => Option.none

/-! ## GEMINI_SEMAPHORE = asyncio.Semaphore(3) (line 114): a small-step
model of M photo-handling tasks contending for the semaphore around their
provider invocation (lines 139-171). -/

def semCapacity : Nat := 3

/-- Aggregate state: free slots, tasks waiting to acquire, tasks holding
a slot (provider call in flight), finished tasks. -/
structure SemState where
  avail : Nat
  waiting : Nat
  running : Nat
  done : Nat
deriving DecidableEq

/-- The two events: a waiting task acquires a free slot and starts its
provider call; a running task finishes and releases its slot. -/
inductive SemStep : SemState → SemState → Prop where
  | acquire (a w r d : Nat) : SemStep ⟨a + 1, w + 1, r, d⟩ ⟨a, w, r + 1, d⟩
  | finish (a w r d : Nat) : SemStep ⟨a, w, r + 1, d⟩ ⟨a + 1, w, r, d + 1⟩

/-- M simultaneous requests, all slots free. -/
def semInit (M : Nat) : SemState := ⟨semCapacity, M, 0, 0⟩

def SemReachable (M : Nat) (s : SemState) : Prop :=
  Relation.ReflTransGen SemStep (semInit M) s

/-- No event is possible. -/
def SemStuck (s : SemState) : Prop := ∀ s', ¬ SemStep s s'

/-- Strictly decreasing measure: every event strictly decreases it, so no
execution runs forever. -/
def semMeasure (s : SemState) : Nat := 2 * s.waiting + s.running

/-! # Claim theorems -/

/-! ## C10 : language preference round-trip -/

theorem get_user_lang_unset : ∀ (db : Db) (uid : Int),
    (∀ p ∈ db, p.1 ≠ uid) → get_user_lang db uid = "en"
  | [], _, _ => rfl
  | p :: rest, uid, h => by
    have hp : (p.1 == uid) = false := beq_eq_false_iff_ne.mpr (h p (by simp))
    simp only [get_user_lang, hp, if_false]
    exact get_user_lang_unset rest uid (fun q hq => h q (by simp [hq]))

/-- C10: setting a user's language and reading it back returns that
language; the most recent set wins (the row keyed on user_id is
replaced); and a user id never set reads back the default "en". -/
theorem C10_lang_roundtrip (db : Db) (uid : Int) (lang l1 l2 : String) :
    get_user_lang (set_user_lang db uid lang) uid = lang
    ∧ ((∀ p ∈ db, p.1 ≠ uid) → get_user_lang db uid = "en")
    ∧ get_user_lang (set_user_lang (set_user_lang db uid l1) uid l2) uid = l2 := by
  refine ⟨?_, get_user_lang_unset db uid, ?_⟩
  · simp [set_user_lang, get_user_lang]
  · simp [set_user_lang, get_user_lang]

theorem C10_lang_roundtrip_witness :
    get_user_lang [((1 : Int), "ar")] 2 = "en" :=
  (C10_lang_roundtrip [((1 : Int), "ar")] 2 "x" "y" "z").2.1 (by decide)

/-! ## C1 : image selector -/

/-- On a descending list, `find?` of "at or under the threshold" returns
the maximum qualifying element, and nothing when none qualifies. -/
theorem findDesc (maxB : Nat) (l : List Nat)
    (hp : l.Pairwise (fun a b => b ≤ a)) :
    (∀ m, l.find? (fun s => decide (s ≤ maxB)) = some m →
        m ≤ maxB ∧ m ∈ l ∧ ∀ t ∈ l, t ≤ maxB → t ≤ m)
    ∧ ((∀ t ∈ l, maxB < t) →
        l.find? (fun s => decide (s ≤ maxB)) = Option.none) := by
  induction hp with
  | nil => simp
  | @cons a rest ha hrest ih =>
    by_cases hle : a ≤ maxB
    · constructor
      · intro m hm
        rw [List.find?_cons_of_pos _ (by simpa using hle)] at hm
        cases hm
        refine ⟨hle, by simp, ?_⟩
        intro t ht _
        rcases List.mem_cons.mp ht with rfl | htr
        · exact Nat.le_refl t
        · exact ha t htr
      · intro hall
        exact absurd hle (Nat.not_le.mpr (hall a (by simp)))
    · constructor
      · intro m hm
        rw [List.find?_cons_of_neg _ (by simpa using hle)] at hm
        obtain ⟨h1, h2, h3⟩ := ih.1 m hm
        refine ⟨h1, by simp [h2], ?_⟩
        intro t ht htle
        rcases List.mem_cons.mp ht with rfl | htr
        · exact absurd htle hle
        · exact h3 t htr htle
      · intro hall
        rw [List.find?_cons_of_neg _ (by simpa using hle)]
        exact ih.2 (fun t ht => hall t (by simp [ht]))

/-- C1 (amended): for variants ordered smallest to largest, the selection
returns the largest variant at or under the threshold when one exists; if
no variant is at or under the threshold it selects nothing (the handler
reports a local processing error), rather than returning the smallest
variant.  For sizes [10, 100, 1000] and threshold 500 it selects 100. -/
theorem C1_selector_amended :
    (∀ (sizes : List Nat) (maxB : Nat), List.Sorted (· ≤ ·) sizes →
      (∀ m, selectVariant sizes maxB = some m →
          m ≤ maxB ∧ m ∈ sizes ∧ ∀ t ∈ sizes, t ≤ maxB → t ≤ m)
      ∧ ((∀ t ∈ sizes, maxB < t) → selectVariant sizes maxB = Option.none)
      ∧ ((∃ t ∈ sizes, t ≤ maxB) → (selectVariant sizes maxB).isSome = true))
    ∧ selectVariant [10, 100, 1000] 500 = some 100 := by
  constructor
  · intro sizes maxB hs
    have hrev : (sizes.reverse).Pairwise (fun a b => b ≤ a) := by
      rw [List.pairwise_reverse]; exact hs
    obtain ⟨h1, h2⟩ := findDesc maxB sizes.reverse hrev
    refine ⟨?_, ?_, ?_⟩
    · intro m hm
      obtain ⟨a, b, c⟩ := h1 m hm
      exact ⟨a, List.mem_reverse.mp b, fun t ht => c t (List.mem_reverse.mpr ht)⟩
    · intro hall
      exact h2 (fun t ht => hall t (List.mem_reverse.mp ht))
    · rintro ⟨u, hu, hule⟩
      unfold selectVariant
      cases hf : sizes.reverse.find? (fun s => decide (s ≤ maxB)) with
      | some m => rfl
      | none =>
        exact absurd (by simpa using hule)
          (by simpa using List.find?_eq_none.mp hf u (List.mem_reverse.mpr hu))
  · decide

theorem C1_selector_witness :
    (selectVariant [10, 100, 1000] 500).isSome = true :=
  (C1_selector_amended.1 [10, 100, 1000] 500 (by decide)).2.2
    ⟨100, by decide, by decide⟩

/-- C1 counterexample: with variant sizes [10, 100, 1000] and threshold 5
the code selects no variant at all (the handler then reports an error),
instead of returning the smallest (10) variant flagged over-threshold as
the claim states. -/
theorem C1_selector_counterexample :
    selectVariant [10, 100, 1000] 5 = Option.none
    ∧ selectVariant [10, 100, 1000] 5 ≠ some 10 := by decide

/-! ## C2 : orchestrator attempt sequence -/

/-- C2: targets are attempted in plan order; if the first k targets yield
no text and target k+1 yields non-empty text, exactly targets 1..k+1 are
attempted, in order, and that text is returned; if every target yields no
text, every target is attempted exactly once and the aggregate failure
(no text) results — the recursion is structural, so it terminates; and in
bot.py's fixed plan every URL-mode target precedes every inline-bytes
target. -/
theorem C2_orchestrator (prov : Target → Except String String) :
    (∀ (pre post : List Target) (t : Target) (s : String),
        (∀ u ∈ pre, yieldsText (prov u) = Option.none) →
        yieldsText (prov t) = some s →
        runPlanE (pre ++ t :: post) prov = (pre ++ [t], some s))
    ∧ (∀ plan : List Target,
        (∀ u ∈ plan, yieldsText (prov u) = Option.none) →
        runPlanE plan prov = (plan, Option.none))
    ∧ (∀ i j : Fin (botPlan true).length,
        ((botPlan true).get i).mode = Mode.url →
        ((botPlan true).get j).mode = Mode.inlineBytes → (i : Nat) < j) := by
  refine ⟨?_, ?_, by decide⟩
  · intro pre post t s hpre ht
    induction pre with
    | nil => simp [runPlanE, ht]
    | cons u pre ih =>
      have hu : yieldsText (prov u) = Option.none := hpre u (by simp)
      have ih2 := ih (fun v hv => hpre v (by simp [hv]))
      simp [runPlanE, hu, ih2]
  · intro plan hall
    induction plan with
    | nil => rfl
    | cons u rest ih =>
      have hu := hall u (by simp)
      have ih2 := ih (fun v hv => hall v (by simp [hv]))
      simp [runPlanE, hu, ih2]

def provC2 : Target → Except String String :=
  fun t => if t.api = "generate_content" ∧ t.mode = Mode.url then .ok "Cam" else .ok ""

theorem C2_orchestrator_witness :
    runPlanE (botPlan true) provC2 =
      ([⟨Mode.url, "generate_text"⟩, ⟨Mode.url, "generate_content"⟩], some "Cam") := by
  have h := (C2_orchestrator provC2).1 [⟨Mode.url, "generate_text"⟩]
      [⟨Mode.inlineBytes, "generate_content"⟩, ⟨Mode.inlineBytes, "generate_text"⟩]
      ⟨Mode.url, "generate_content"⟩ "Cam" (by decide) (by decide)
  simpa [botPlan] using h

/-! ## C3 : retry with exponential backoff -/

instance {ε α : Type} [DecidableEq ε] [DecidableEq α] : DecidableEq (Except ε α) :=
  fun a b =>
    match a, b with
    | .ok x, .ok y => if h : x = y then isTrue (by rw [h]) else isFalse (by simp [h])
    | .error x, .error y => if h : x = y then isTrue (by rw [h]) else isFalse (by simp [h])
    | .ok _, .error _ => isFalse (by simp)
    | .error _, .ok _ => isFalse (by simp)

/-- C3: a single provider target that fails transiently (timeout or 5xx)
on the first two attempts and succeeds on the third (the retry budget is
maxAttempts = 3) still returns the success text, after backoff sleeps of
1 then 2 seconds; a target failing transiently on all three attempts
yields no text (the caller then advances / reports failure). -/
theorem C3_retry_backoff (out : Nat → CallOutcome) (body : PyVal) (t : String) :
    (Transient (out 1) → Transient (out 2) → out 3 = CallOutcome.ok 200 body →
      extract_text_from_gemini_response body = .ok (some t) →
      call_gemini_with_image out = ([1, 2], some t))
    ∧ (Transient (out 1) → Transient (out 2) → Transient (out 3) →
      call_gemini_with_image out = ([1, 2], Option.none))
    ∧ maxAttempts = 3 := by
  refine ⟨?_, ?_, rfl⟩
  · intro h1 h2 h3 hx
    rcases h1 with ha | ⟨s1, b1, ha, h51, h61⟩ <;>
      rcases h2 with hb | ⟨s2, b2, hb, h52, h62⟩
    · simp [call_gemini_with_image, geminiRetry, maxAttempts, ha, hb, h3, hx]
    · have hne2 : ¬ s2 = 200 := by omega
      simp [call_gemini_with_image, geminiRetry, maxAttempts, ha, hb, h3, hx,
        hne2, h52, h62]
    · have hne1 : ¬ s1 = 200 := by omega
      simp [call_gemini_with_image, geminiRetry, maxAttempts, ha, hb, h3, hx,
        hne1, h51, h61]
    · have hne1 : ¬ s1 = 200 := by omega
      have hne2 : ¬ s2 = 200 := by omega
      simp [call_gemini_with_image, geminiRetry, maxAttempts, ha, hb, h3, hx,
        hne1, h51, h61, hne2, h52, h62]
  · intro h1 h2 h3
    rcases h1 with ha | ⟨s1, b1, ha, h51, h61⟩ <;>
      rcases h2 with hb | ⟨s2, b2, hb, h52, h62⟩ <;>
      rcases h3 with hc | ⟨s3, b3, hc, h53, h63⟩
    all_goals try have hne1 : ¬ s1 = 200 := by omega
    all_goals try have hne2 : ¬ s2 = 200 := by omega
    all_goals try have hne3 : ¬ s3 = 200 := by omega
    all_goals simp [call_gemini_with_image, geminiRetry, maxAttempts, *]

def outC3 : Nat → CallOutcome :=
  fun n =>
    if n = 1 then CallOutcome.timeout
    else if n = 2 then CallOutcome.ok 503 (PyVal.dict [])
    else CallOutcome.ok 200 (PyVal.dict [("text", PyVal.str "Widget X")])

theorem C3_retry_backoff_witness :
    call_gemini_with_image outC3 = ([1, 2], some "Widget X") :=
  (C3_retry_backoff outC3 (PyVal.dict [("text", PyVal.str "Widget X")]) "Widget X").1
    (Or.inl rfl)
    (Or.inr ⟨503, PyVal.dict [], rfl, by decide, by decide⟩)
    rfl
    (by decide)

/-! ## C7 : error propagation policy -/

/-- C7: per-target errors are contained.  photo_handler always returns a
reply (never a raised fault), whatever the download outcome, session
state and provider outcomes; likewise bot.py's handle_photo; a raised
provider attempt advances the plan to the next target; and an exception
inside the retry loop retries while budget remains and otherwise yields
the no-text outcome instead of propagating. -/
theorem C7_error_containment :
    (∀ (db : Db) (uid : Int) (pp : Bool) (dl : Except String (List Nat)) (sa : Bool)
        (stub : List Nat → Nat → CallOutcome),
        ∃ r, photo_handler db uid pp dl sa stub = .ok r)
    ∧ (∀ (sizes : List Nat) (u : Bool) (prov : Target → Except String String),
        ∃ r, handle_photo sizes u prov = .ok r)
    ∧ (∀ (prov : Target → Except String String) (t : Target) (rest : List Target)
        (e : String), prov t = .error e →
        runPlanE (t :: rest) prov =
          (t :: (runPlanE rest prov).1, (runPlanE rest prov).2))
    ∧ (∀ (out : Nat → CallOutcome) (a b f : Nat) (msg : String),
        out a = CallOutcome.exc msg → a < maxAttempts →
        geminiRetry out a b (f + 1) =
          (b :: (geminiRetry out (a + 1) (b * 2) f).1,
           (geminiRetry out (a + 1) (b * 2) f).2))
    ∧ (∀ (out : Nat → CallOutcome) (b f : Nat) (msg : String),
        out maxAttempts = CallOutcome.exc msg →
        geminiRetry out maxAttempts b (f + 1) = ([], Option.none)) := by
  refine ⟨?_, ?_, ?_, ?_, ?_⟩
  · intro db uid pp dl sa stub
    unfold photo_handler
    split
    · exact ⟨_, rfl⟩
    · split
      · exact ⟨_, rfl⟩
      · exact ⟨_, rfl⟩
  · intro sizes u prov
    unfold handle_photo
    split
    · exact ⟨_, rfl⟩
    · split
      · exact ⟨_, rfl⟩
      · split
        · exact ⟨_, rfl⟩
        · exact ⟨_, rfl⟩
  · intro prov t rest e h
    simp [runPlanE, yieldsText, h]
  · intro out a b f msg h ha
    simp [geminiRetry, h, ha]
  · intro out b f msg h
    simp [geminiRetry, h]

def provC7 : Target → Except String String := fun _ => .error "boom"

theorem C7_error_containment_witness :
    runPlanE [⟨Mode.url, "generate_text"⟩] provC7 =
      ([⟨Mode.url, "generate_text"⟩], Option.none) := by
  have h := C7_error_containment.2.2.1 provC7 ⟨Mode.url, "generate_text"⟩ [] "boom" rfl
  simpa [runPlanE] using h

/-! ## C8 : determinism / idempotence of the pipeline -/

/-- C8: the pipeline never writes the shared state (the users DB comes
back unchanged from a successful or failed run), so running it twice on
identical image bytes with the same deterministic provider stub produces
identical replies. -/
theorem C8_idempotent (db : Db) (uid : Int) (pp : Bool)
    (dl : Except String (List Nat)) (sa : Bool)
    (stub : List Nat → Nat → CallOutcome) :
    ∃ r, photo_handler db uid pp dl sa stub = .ok (db, r)
      ∧ runTwice db uid pp dl sa stub = some (r, r) := by
  obtain ⟨r, hr⟩ : ∃ r, photo_handler db uid pp dl sa stub = .ok (db, r) := by
    unfold photo_handler
    split
    · exact ⟨_, rfl⟩
    · split
      · exact ⟨_, rfl⟩
      · exact ⟨_, rfl⟩
  exact ⟨r, hr, by simp [runTwice, hr]⟩

/-! ## C9 : concurrency limiter -/

theorem sem_invariant (M : Nat) (s : SemState) (h : SemReachable M s) :
    s.avail + s.running = semCapacity ∧ s.waiting + s.running + s.done = M := by
  induction h with
  | refl => constructor <;> simp [semInit]
  | tail _ hstep ih =>
    cases hstep with
    | acquire a w r d => simp_all [semCapacity]; omega
    | finish a w r d => simp_all [semCapacity]; omega

/-- C9: in every reachable state of M tasks contending for the capacity-3
semaphore, at most 3 provider calls are in flight; when all 3 slots are
taken the only possible event is a finish (a waiting task can start only
after a slot frees); every event strictly decreases a finite measure, so
no execution runs forever; and a stuck state has all M tasks finished. -/
theorem C9_semaphore (M : Nat) (s : SemState) (h : SemReachable M s) :
    s.running ≤ semCapacity
    ∧ (s.running = semCapacity →
        ∀ s', SemStep s s' → s'.running = semCapacity - 1 ∧ s'.done = s.done + 1)
    ∧ (SemStuck s → s.done = M)
    ∧ (∀ s', SemStep s s' → semMeasure s' < semMeasure s) := by
  obtain ⟨hinv1, hinv2⟩ := sem_invariant M s h
  obtain ⟨a, w, r, d⟩ := s
  simp only [semCapacity] at hinv1 hinv2 ⊢
  refine ⟨by omega, ?_, ?_, ?_⟩
  · intro hr s' hstep
    cases hstep with
    | acquire a0 w0 r0 d0 =>
      exfalso
      simp_all
    | finish a0 w0 r0 d0 =>
      simp_all
  · intro hstuck
    have hr0 : r = 0 := by
      by_contra h0
      rcases Nat.exists_eq_succ_of_ne_zero h0 with ⟨r0, rfl⟩
      exact hstuck ⟨a + 1, w, r0, d + 1⟩ (SemStep.finish a w r0 d)
    subst hr0
    have hw0 : w = 0 := by
      by_contra h0
      rcases Nat.exists_eq_succ_of_ne_zero h0 with ⟨w0, rfl⟩
      have ha3 : a = 3 := by omega
      subst ha3
      exact hstuck ⟨2, w0, 1, d⟩ (SemStep.acquire 2 w0 0 d)
    simp_all
  · intro s' hstep
    cases hstep with
    | acquire a0 w0 r0 d0 => simp only [semMeasure]; omega
    | finish a0 w0 r0 d0 => simp only [semMeasure]; omega

theorem C9_semaphore_witness :
    (⟨0, 2, 3, 0⟩ : SemState).running ≤ semCapacity := by
  have s1 : SemStep (semInit 5) ⟨2, 4, 1, 0⟩ := SemStep.acquire 2 4 0 0
  have s2 : SemStep ⟨2, 4, 1, 0⟩ ⟨1, 3, 2, 0⟩ := SemStep.acquire 1 3 1 0
  have s3 : SemStep ⟨1, 3, 2, 0⟩ ⟨0, 2, 3, 0⟩ := SemStep.acquire 0 2 2 0
  have hchain : SemReachable 5 ⟨0, 2, 3, 0⟩ :=
    Relation.ReflTransGen.tail (Relation.ReflTransGen.tail
      (Relation.ReflTransGen.tail Relation.ReflTransGen.refl s1) s2) s3
  exact (C9_semaphore 5 ⟨0, 2, 3, 0⟩ hchain).1

/-! ## C4 : normalizer totality -/

/-- C4 counterexample: bot.py's extract_text_from_response raises
AttributeError on a response whose `text` field holds the truthy
non-string 5 (`text.strip()` on an int), so the normalizer is not total
on wrong-typed fields. -/
theorem C4_totality_counterexample :
    extract_text_from_response (PyVal.dict [("text", PyVal.int 5)]) =
      Except.error "AttributeError" := by decide

/-- C4 (amended): the aiohttp variant's normalizer
extract_text_from_gemini_response returns a result without raising for
every input whatsoever (its internal try/except catches everything);
bot.py's extract_text_from_response lacks that guard and can raise on a
truthy non-string textual field. -/
theorem C4_gemini_normalizer_total (data : PyVal) :
    ∃ r : Option String, extract_text_from_gemini_response data = Except.ok r := by
  cases h : extract_body data with
  | ok r => exact ⟨r, by simp [extract_text_from_gemini_response, h]⟩
  | error e => exact ⟨Option.none, by simp [extract_text_from_gemini_response, h]⟩

/-! ## C6 : normalizer extraction order and exactness -/

def widgetJson : PyVal :=
  PyVal.dict [("candidates", PyVal.list [PyVal.dict [("content",
    PyVal.list [PyVal.dict [("text", PyVal.str "Widget X")]])]])]

def widgetResp : PyVal :=
  PyVal.dict [("candidates", PyVal.list [PyVal.dict [("content", PyVal.str "Widget X")]])]

/-- C6 counterexample: the aiohttp variant does not try the direct text
field first — on a response carrying both a direct text field "A" and a
nested candidate text "B" it returns "B" (candidates are consulted
first), whereas the claimed order would return "A". -/
theorem C6_order_counterexample :
    extract_text_from_gemini_response
        (PyVal.dict [("text", PyVal.str "A"),
          ("candidates", PyVal.list [PyVal.dict [("content",
            PyVal.list [PyVal.dict [("text", PyVal.str "B")]])]])]) =
      Except.ok (some "B")
    ∧ (Except.ok (some "B") : Except String (Option String)) ≠
        Except.ok (some "A") := by decide

/-- C6 (amended): bot.py's extract_text_from_response does try the direct
text field first (a truthy string text attribute wins outright), then
candidates, then outputs, then the string conversion of the response;
the aiohttp variant instead consults candidate lists before the direct
text keys.  Both normalizers return exactly "Widget X" (trimmed, with no
surrounding material) from a nested candidate/content structure
containing "Widget X". -/
theorem C6_normalizer_order :
    (∀ (f : List (String × PyVal)) (s : String),
        lookupD f "text" = PyVal.str s → s ≠ "" →
        extract_text_from_response (PyVal.dict f) = Except.ok (stripStr s))
    ∧ extract_text_from_gemini_response widgetJson = Except.ok (some "Widget X")
    ∧ extract_text_from_response widgetResp = Except.ok "Widget X"
    ∧ extract_text_from_response (PyVal.int 7) = Except.ok "7" := by
  refine ⟨?_, by decide, by decide, by decide⟩
  intro f s hf hs
  have ht : pyTruthy (PyVal.str s) = true := by simp [pyTruthy, hs]
  simp [extract_text_from_response, pyGetattr, hf, ht, pyStrip]

theorem C6_normalizer_order_witness :
    extract_text_from_response (PyVal.dict [("text", PyVal.str " Hi ")]) =
      Except.ok (stripStr " Hi ") :=
  C6_normalizer_order.1 [("text", PyVal.str " Hi ")] " Hi " rfl (by decide)

/-! ## C5 : normalizer on non-textual input -/

/-- C5 counterexample: on a response containing no string anywhere, the
aiohttp variant returns None — a no-text marker, not the empty string —
and bot.py's variant falls back to `str(resp)`, a non-empty placeholder,
not the empty string either. -/
theorem C5_no_text_counterexample :
    extract_text_from_gemini_response (PyVal.dict [("n", PyVal.int 42)]) =
      Except.ok Option.none
    ∧ extract_text_from_gemini_response (PyVal.dict [("n", PyVal.int 42)]) ≠
        Except.ok (some "")
    ∧ extract_text_from_response (PyVal.dict [("n", PyVal.int 42)]) ≠
        Except.ok "" := by
  refine ⟨by decide, by decide, by decide⟩

theorem noStrList_elem : ∀ (xs : List PyVal), noStrList xs = true →
    ∀ v ∈ xs, noStr v = true
  | x :: rest, h, v, hv => by
    have h' : noStr x = true ∧ noStrList rest = true := by
      simpa [noStrList, Bool.and_eq_true] using h
    rcases List.mem_cons.mp hv with rfl | hr
    · exact h'.1
    · exact noStrList_elem rest h'.2 v hr

theorem noStrFields_lookupD : ∀ (f : List (String × PyVal)) (k : String),
    noStrFields f = true → noStr (lookupD f k) = true
  | [], k, _ => by simp [lookupD, noStr]
  | ⟨k0, v⟩ :: rest, k, h => by
    have h' : noStr v = true ∧ noStrFields rest = true := by
      simpa [noStrFields, Bool.and_eq_true] using h
    by_cases hk : (k0 == k) = true
    · simpa [lookupD, hk] using h'.1
    · simpa [lookupD, hk] using noStrFields_lookupD rest k h'.2

theorem noStr_pyOr (a b : PyVal) (ha : noStr a = true) (hb : noStr b = true) :
    noStr (pyOr a b) = true := by
  unfold pyOr; split <;> assumption

theorem pyStrip_noStr (v : PyVal) (h : noStr v = true) :
    pyStrip v = .error "AttributeError" := by
  cases v <;> simp_all [pyStrip, noStr]

mutual
theorem noStr_find : ∀ (v : PyVal), noStr v = true →
    find_first_str v = Option.none
  | .none, _ => by simp [find_first_str]
  | .bool b, _ => by simp [find_first_str]
  | .int n, _ => by simp [find_first_str]
  | .str s, h => by simp [noStr] at h
  | .list xs, h => by
    simpa [find_first_str] using noStr_find_list xs (by simpa [noStr] using h)
  | .dict f, h => by
    simpa [find_first_str] using noStr_find_fields f (by simpa [noStr] using h)

theorem noStr_find_list : ∀ (xs : List PyVal), noStrList xs = true →
    find_first_str_list xs = Option.none
  | [], _ => by simp [find_first_str_list]
  | v :: rest, h => by
    have h' : noStr v = true ∧ noStrList rest = true := by
      simpa [noStrList, Bool.and_eq_true] using h
    simp [find_first_str_list, noStr_find v h'.1, noStr_find_list rest h'.2]

theorem noStr_find_fields : ∀ (f : List (String × PyVal)), noStrFields f = true →
    find_first_str_fields f = Option.none
  | [], _ => by simp [find_first_str_fields]
  | ⟨k, v⟩ :: rest, h => by
    have h' : noStr v = true ∧ noStrFields rest = true := by
      simpa [noStrFields, Bool.and_eq_true] using h
    simp [find_first_str_fields, noStr_find v h'.1, noStr_find_fields rest h'.2]
end

theorem contentLoop_noStr : ∀ (l : List PyVal), noStrList l = true →
    ∀ s, contentLoop l ≠ .ok (some s)
  | [], _, s => by simp [contentLoop]
  | p :: rest, h, s => by
    have h' : noStr p = true ∧ noStrList rest = true := by
      simpa [noStrList, Bool.and_eq_true] using h
    cases p with
    | str t => simp [noStr] at h'
    | dict pf =>
      have hpf : noStrFields pf = true := by simpa [noStr] using h'.1
      by_cases hk : hasKey pf "text" = true
      · have := pyStrip_noStr (lookupD pf "text") (noStrFields_lookupD pf "text" hpf)
        simp [contentLoop, hk, this, Except.map]
      · simpa [contentLoop, hk] using contentLoop_noStr rest h'.2 s
    | none => simpa [contentLoop] using contentLoop_noStr rest h'.2 s
    | bool b => simpa [contentLoop] using contentLoop_noStr rest h'.2 s
    | int n => simpa [contentLoop] using contentLoop_noStr rest h'.2 s
    | list xs => simpa [contentLoop] using contentLoop_noStr rest h'.2 s

theorem afterContent_noStr (ff : List (String × PyVal))
    (h : noStrFields ff = true) : afterContent ff = .ok Option.none := by
  have hv := noStrFields_lookupD ff "text" h
  unfold afterContent
  by_cases hk : hasKey ff "text" = true
  · cases he : lookupD ff "text" <;> simp_all [noStr]
  · simp [hk]

theorem candidatesBlock_noStr (f : List (String × PyVal))
    (h : noStrFields f = true) : ∀ s, candidatesBlock f ≠ .ok (some s) := by
  intro s
  have hcands : noStr (pyOr (pyOr (lookupD f "candidates") (lookupD f "outputs"))
      (lookupD f "outputs_candidates")) = true :=
    noStr_pyOr _ _ (noStr_pyOr _ _ (noStrFields_lookupD f "candidates" h)
      (noStrFields_lookupD f "outputs" h)) (noStrFields_lookupD f "outputs_candidates" h)
  unfold candidatesBlock
  cases hc : pyOr (pyOr (lookupD f "candidates") (lookupD f "outputs"))
      (lookupD f "outputs_candidates") with
  | list xs =>
    rw [hc] at hcands
    cases xs with
    | nil => simp
    | cons first rest =>
      have hfirst : noStr first = true :=
        noStrList_elem (first :: rest) (by simpa [noStr] using hcands) first (by simp)
      cases first with
      | dict ff =>
        have hff : noStrFields ff = true := by simpa [noStr] using hfirst
        have hcont := noStrFields_lookupD ff "content" hff
        cases hco : lookupD ff "content" with
        | list ps =>
          rw [hco] at hcont
          cases ps with
          | nil => simp [hco, afterContent_noStr ff hff]
          | cons p ps2 =>
            have hloop := contentLoop_noStr (p :: ps2) (by simpa [noStr] using hcont)
            cases hl : contentLoop (p :: ps2) with
            | ok r =>
              cases r with
              | some t => exact absurd hl (hloop t)
              | none => simp [hco, hl, afterContent_noStr ff hff]
            | error e => simp [hco, hl]
        | none => simp [hco, afterContent_noStr ff hff]
        | bool b => simp [hco, afterContent_noStr ff hff]
        | int n => simp [hco, afterContent_noStr ff hff]
        | str t => simp [hco, afterContent_noStr ff hff]
        | dict g => simp [hco, afterContent_noStr ff hff]
      | none => simp
      | bool b => simp
      | int n => simp
      | str t => simp
      | list ys => simp
  | none => simp
  | bool b => simp
  | int n => simp
  | str t => simp
  | dict g => simp

theorem outputBlock_noStr (f : List (String × PyVal))
    (h : noStrFields f = true) : ∀ s, outputBlock f ≠ .ok (some s) := by
  intro s
  have hout := noStrFields_lookupD f "output" h
  unfold outputBlock
  by_cases hk : hasKey f "output" = true
  · cases ho : lookupD f "output" with
    | dict out =>
      rw [ho] at hout
      have hkf : noStrFields out = true := by simpa [noStr] using hout
      by_cases hk2 : hasKey out "text" = true
      · have := pyStrip_noStr (lookupD out "text") (noStrFields_lookupD out "text" hkf)
        simp [hk, ho, hk2, this, Except.map]
      · simp [hk, ho, hk2]
    | none => simp [hk]
    | bool b => simp [hk]
    | int n => simp [hk]
    | str t => simp [hk]
    | list xs => simp [hk]
  · simp [hk]

theorem keysBlock_noStr (f : List (String × PyVal))
    (h : noStrFields f = true) : keysBlock f = Option.none := by
  have h1 := noStrFields_lookupD f "response" h
  have h2 := noStrFields_lookupD f "result" h
  have h3 := noStrFields_lookupD f "text" h
  unfold keysBlock
  cases e1 : lookupD f "response" <;>
    solve
    | (rw [e1] at h1; simp [noStr] at h1)
    | (cases e2 : lookupD f "result" <;>
        solve
        | (rw [e2] at h2; simp [noStr] at h2)
        | (cases e3 : lookupD f "text" <;>
            solve
            | (rw [e3] at h3; simp [noStr] at h3)
            | rfl))

theorem extract_body_noStr (data : PyVal) (h : noStr data = true) :
    ∀ s, extract_body data ≠ .ok (some s) := by
  intro s
  cases data with
  | dict f =>
    have hf : noStrFields f = true := by simpa [noStr] using h
    unfold extract_body
    have hfind := noStr_find_fields f hf
    cases hc : candidatesBlock f with
    | ok r =>
      cases r with
      | some t => exact absurd hc (candidatesBlock_noStr f hf t)
      | none =>
        cases ho : outputBlock f with
        | ok r2 =>
          cases r2 with
          | some t => exact absurd ho (outputBlock_noStr f hf t)
          | none =>
            simp [pyChain, hc, ho, keysBlock_noStr f hf, find_first_str, hfind]
        | error e => simp [pyChain, hc, ho]
    | error e => simp [pyChain, hc]
  | none => simp [extract_body]
  | bool b => simp [extract_body]
  | int n => simp [extract_body]
  | str t => simp [noStr] at h
  | list xs => simp [extract_body]

/-- C5 (amended): for every response containing no string anywhere, the
aiohttp variant's normalizer returns None — the falsy no-text marker that
signals "try next target" to its caller — never an error and never a
non-empty text; bot.py's variant instead falls back to the stringified
response, a non-empty placeholder. -/
theorem C5_no_text_none (data : PyVal) (h : noStr data = true) :
    extract_text_from_gemini_response data = Except.ok Option.none := by
  have hb := extract_body_noStr data h
  unfold extract_text_from_gemini_response
  cases he : extract_body data with
  | ok r =>
    cases r with
    | some t => exact absurd he (hb t)
    | none => rfl
  | error e => rfl

theorem C5_no_text_none_witness :
    extract_text_from_gemini_response
        (PyVal.list [PyVal.int 3, PyVal.dict [("k", PyVal.bool true)]]) =
      Except.ok Option.none :=
  C5_no_text_none (PyVal.list [PyVal.int 3, PyVal.dict [("k", PyVal.bool true)]])
    (by decide)
